import Mathlib

/-!
Verification development for the HFEEC packet-ingestion engine.

The definitions below are shallow embeddings of the Rust sources:
  * `parse_cpu_list`            — src/cpu/topology.rs, src/cpu/numa.rs (identical copies)
  * `NumaTopology.load_topology`— src/cpu/numa.rs
  * `DpdkConfig`, `build_eth_conf` — src/dpdk/config.rs, src/dpdk/init.rs
  * `PacketData`, `PacketDataPool` — src/packet/data.rs, src/packet/pool.rs
  * worker loop (`process_packet`, `process_burst`) — src/numa/node.rs
  * `NumaNode.start_workers`, `NumaNode.stop_workers` — src/numa/node.rs
  * `NumaManager` shutdown — src/numa/manager.rs

Machine integers are modelled as `Nat` with explicit `% 2^w` where overflow
matters; raw pointers as `Nat` with `0` standing for the null pointer;
fallible operations return `Except String` mirroring `Result<_, String>`.
-/

namespace HFEEC

/-! ## parse_cpu_list (src/cpu/topology.rs lines 298-318; identical copy in src/cpu/numa.rs)

Rust:
```
for part in list.trim().split(',') {
    if part.contains('-') {
        let range: Vec<&str> = part.split('-').collect();
        if range.len() == 2 {
            if let (Ok(start), Ok(end)) = (range[0].parse::<usize>(), range[1].parse::<usize>()) {
                for i in start..=end { result.push(i); }
            }
        }
    } else if let Ok(num) = part.parse::<usize>() {
        result.push(num);
    }
}
```
Strings are handled as their character lists so that every operation is
structural (Rust `str` operations on a `&str` view correspond to operations
on the character sequence). `str::parse::<usize>` succeeds exactly on a
non-empty all-digit string (an optional leading `+` is also accepted by
Rust, which never occurs in sysfs cpulists); `parseUsize` below has the
same success condition on digit strings. `start..=end` is empty when
`start > end`, matching `List.range' start (end + 1 - start)` under
truncated subtraction. -/

/-- Rust `str::trim`: remove whitespace from both ends of the string. -/
def trimChars (cs : List Char) : List Char :=
  ((cs.dropWhile Char.isWhitespace).reverse.dropWhile Char.isWhitespace).reverse

/-- Rust `str::parse::<usize>`: succeeds exactly on a non-empty string of
decimal digits (the optional `+` sign accepted by Rust never occurs in the
inputs of this program), yielding its decimal value. -/
def parseUsize (cs : List Char) : Option Nat :=
  if !cs.isEmpty && cs.all Char.isDigit then
    some (cs.foldl (fun n c => n * 10 + (c.toNat - 48)) 0)
  else
    none

/-- One `,`-separated token of a cpulist: either an inclusive range
`start..=end` (when the token contains `-` and splits into exactly two
parseable numbers) or a single number; anything else is dropped. -/
def parse_cpu_part (part : List Char) : List Nat :=
  if part.contains '-' then
    match List.splitOn '-' part with
    | [a, b] =>
      match parseUsize a, parseUsize b with
      | some start, some stop => List.range' start (stop + 1 - start)
      | _, _ => []
    | _ => []
  else
    match parseUsize part with
    | some num => [num]
    | none => []

/-- Rust `parse_cpu_list` from src/cpu/topology.rs lines 298-318 (an identical
copy lives in src/cpu/numa.rs) — parses a cpulist string such as
`"0-3,5,7-9"`; the whole string is trimmed once, then split on `,` and each
token parsed by `parse_cpu_part`. -/
def parse_cpu_list (list : String) : List Nat :=
  (List.splitOn ',' (trimChars list.data)).foldl
    (fun result part => result ++ parse_cpu_part part) []

/-! ## NumaTopology and load_topology (src/cpu/numa.rs lines 11-107)

The struct also carries `node_memory`, `device_node` and `nic_node` maps; no
claim touches them, so the embedding keeps `num_nodes` and `node_cores`
(HashMap embedded as an association list keyed by node id, one entry per
`node<N>` sysfs directory). -/

structure NumaTopology where
  num_nodes : Nat
  node_cores : List (Nat × List Nat)
  deriving Repr, DecidableEq

/-- One `node<N>` directory of `/sys/devices/system/node`: its numeric id
and, when the `cpulist` file exists, that file's first line. -/
structure NodeDirEntry where
  node_id : Nat
  cpulist : Option String
  deriving Repr

/-- Rust `NumaTopology::load_topology` (src/cpu/numa.rs lines 40-75) as a function
of the sysfs node tree: `none` means `/sys/devices/system/node` does not
exist; `some entries` lists the `node<N>` directories found there. When the
tree is absent the code sets `num_nodes = 1` and returns with every map
still empty; otherwise `num_nodes` counts the distinct node ids (the
`HashSet`) and `node_cores` gets one entry per node whose `cpulist` file
exists, holding `parse_cpu_list` of its contents. -/
def load_topology (tree : Option (List NodeDirEntry)) : NumaTopology :=
  match tree with
  | none => { num_nodes := 1, node_cores := [] }
  | some entries =>
    { num_nodes := (entries.map NodeDirEntry.node_id).dedup.length
      node_cores := entries.filterMap fun e =>
        e.cpulist.map fun s => (e.node_id, parse_cpu_list s) }

/-! ## DpdkConfig (src/dpdk/config.rs) and eth-device configuration
(src/dpdk/init.rs `configure_port_for_node`, lines 104-165)

RSS hash constants from src/dpdk/ffi.rs lines 32-40. -/

def ETH_RSS_IP : Nat := 0x1
def ETH_RSS_TCP : Nat := 0x2
def ETH_RSS_UDP : Nat := 0x4
def ETH_MQ_RX_RSS : Nat := 1
def ETH_RSS_NONFRAG_IPV4_TCP : Nat := 0x40
def ETH_RSS_NONFRAG_IPV4_UDP : Nat := 0x80
def ETH_RSS_L4_DST_ONLY : Nat := 0x200

/-- Modelled from the spec: the RX/TX offload bit constants
(`DEV_RX_OFFLOAD_*`, `DEV_TX_OFFLOAD_*`) are referenced by
src/dpdk/init.rs as members of the ffi module but are not declared
anywhere under src/; the spec lists them among the KBD constants
("TX/RX offload bits (checksum, TSO, UDP-TSO, LRO, TCP-GRO, scatter,
multi-segs)"). They are modelled as the corresponding DPDK bit values;
no claim depends on the particular values, only on which flags the
configuration path sets. -/
def DEV_RX_OFFLOAD_SCATTER : Nat := 0x2000
def DEV_RX_OFFLOAD_CHECKSUM : Nat := 0xe
def DEV_RX_OFFLOAD_TCP_LRO : Nat := 0x10
def DEV_RX_OFFLOAD_TCP_GRO : Nat := 0x80000
def DEV_TX_OFFLOAD_IPV4_CKSUM : Nat := 0x2
def DEV_TX_OFFLOAD_UDP_CKSUM : Nat := 0x4
def DEV_TX_OFFLOAD_TCP_CKSUM : Nat := 0x8
def DEV_TX_OFFLOAD_TCP_TSO : Nat := 0x20
def DEV_TX_OFFLOAD_UDP_TSO : Nat := 0x40
def DEV_TX_OFFLOAD_MULTI_SEGS : Nat := 0x8000

/-- Rust `DpdkConfig` (src/dpdk/config.rs lines 4-32). Byte vectors are lists of
byte values; the C integer fields are natural numbers (their width only
matters for `burst_size * 4`, handled at the use site). -/
structure DpdkConfig where
  port_id : Nat
  num_rx_queues : Nat
  num_tx_queues : Nat
  promiscuous : Bool
  rx_ring_size : Nat
  tx_ring_size : Nat
  num_mbufs : Nat
  mbuf_cache_size : Nat
  burst_size : Nat
  use_rss : Bool
  rss_hf : Nat
  use_cpu_affinity : Bool
  rss_key : Option (List Nat)
  use_huge_pages : Bool
  socket_mem : Option (List Nat)
  huge_dir : Option String
  data_room_size : Nat
  use_numa_on_socket : Bool
  use_jumbo_frames : Bool
  max_rx_pkt_len : Nat
  use_hw_checksum : Bool
  use_flow_director : Bool
  use_tso : Bool
  use_lro : Bool
  use_udp_tso : Bool
  max_tso_segment_size : Nat
  /-- Modelled from the spec: `use_gro` is read by src/dpdk/init.rs line 158
  but not declared in the `DpdkConfig` struct under src/; the spec lists GRO
  among the segmentation-offload flags of `PortConfig`. -/
  use_gro : Bool
  /-- Modelled from the spec: `max_gro_size`, read by src/dpdk/init.rs line
  161 (only printed there), likewise missing from the struct under src/. -/
  max_gro_size : Nat
  deriving Repr, DecidableEq

/-- Rust `impl Default for DpdkConfig` (src/dpdk/config.rs lines 34-68). -/
def DpdkConfig.default : DpdkConfig where
  port_id := 0
  num_rx_queues := 4
  num_tx_queues := 4
  promiscuous := true
  rx_ring_size := 1024
  tx_ring_size := 1024
  num_mbufs := 8191
  mbuf_cache_size := 250
  burst_size := 32
  use_rss := true
  rss_hf := ETH_RSS_NONFRAG_IPV4_TCP ||| ETH_RSS_NONFRAG_IPV4_UDP ||| ETH_RSS_L4_DST_ONLY
  use_cpu_affinity := true
  rss_key := none
  use_huge_pages := true
  socket_mem := some [1024, 1024]
  huge_dir := none
  data_room_size := 2048
  use_numa_on_socket := true
  use_jumbo_frames := false
  max_rx_pkt_len := 1518
  use_hw_checksum := true
  use_flow_director := false
  use_tso := false
  use_lro := false
  use_udp_tso := false
  max_tso_segment_size := 1460
  -- the two spec-modelled GRO fields: disabled, matching every other
  -- offload default in the source
  use_gro := false
  max_gro_size := 0

/-- Rust `RteEthRssConf` (src/dpdk/ffi.rs): `rss_key` is a raw byte pointer,
embedded as the pointed-to key bytes with `none` for null. -/
structure RteEthRssConf where
  rss_key : Option (List Nat)
  rss_key_len : Nat
  rss_hf : Nat
  deriving Repr, DecidableEq

structure RteEthRxMode where
  mq_mode : Nat
  max_rx_pkt_len : Nat
  split_hdr_size : Nat
  offloads : Nat
  deriving Repr, DecidableEq

structure RteEthTxMode where
  mq_mode : Nat
  pvid : Nat
  offloads : Nat
  deriving Repr, DecidableEq

/-- Rust `RteEthConf` (src/dpdk/ffi.rs lines 63-72); the all-empty advanced /
fdir / intr sub-structs are omitted, `rx_adv_conf` is inlined to its only
member `rss_conf`. -/
structure RteEthConf where
  rxmode : RteEthRxMode
  txmode : RteEthTxMode
  lpbk_mode : Nat
  rss_conf : RteEthRssConf
  dcb_capability_en : Nat
  deriving Repr, DecidableEq

/-- Rust `default_eth_config` (src/dpdk/init.rs lines 299-325): everything zero /
null. -/
def default_eth_config : RteEthConf where
  rxmode := { mq_mode := 0, max_rx_pkt_len := 0, split_hdr_size := 0, offloads := 0 }
  txmode := { mq_mode := 0, pvid := 0, offloads := 0 }
  lpbk_mode := 0
  rss_conf := { rss_key := none, rss_key_len := 0, rss_hf := 0 }
  dcb_capability_en := 0

/-! The `eth_conf`-building part of `configure_port_for_node`
(src/dpdk/init.rs lines 104-165) is a sequence of conditional mutations of
the `eth_conf` value; each `if` block of the source is one `apply_*` step
below, composed in source order by `build_eth_conf`. -/

/-- RSS step (src/dpdk/init.rs lines 106-116): when
`use_rss && num_rx_queues > 1`, set the multi-queue mode to RSS and program
the hash mask; when a key is provided also point `rss_key` at it with
`rss_key_len = key.len() as u8`. -/
def apply_rss (cfg : DpdkConfig) (conf : RteEthConf) : RteEthConf :=
  let enable_rss := cfg.use_rss && decide (1 < cfg.num_rx_queues)
  if enable_rss then
    let rc := { conf.rss_conf with rss_hf := cfg.rss_hf }
    let rc :=
      match cfg.rss_key with
      | some key => { rc with rss_key := some key, rss_key_len := key.length % 256 }
      | none => rc
    { conf with rxmode := { conf.rxmode with mq_mode := ETH_MQ_RX_RSS }, rss_conf := rc }
  else conf

/-- Jumbo-frame step (src/dpdk/init.rs lines 119-123). -/
def apply_jumbo (cfg : DpdkConfig) (conf : RteEthConf) : RteEthConf :=
  if cfg.use_jumbo_frames then
    { conf with rxmode := { conf.rxmode with
        max_rx_pkt_len := cfg.max_rx_pkt_len
        offloads := conf.rxmode.offloads ||| DEV_RX_OFFLOAD_SCATTER } }
  else conf

/-- Hardware-checksum step (src/dpdk/init.rs lines 126-131). -/
def apply_hw_checksum (cfg : DpdkConfig) (conf : RteEthConf) : RteEthConf :=
  if cfg.use_hw_checksum then
    { conf with
        rxmode := { conf.rxmode with
          offloads := conf.rxmode.offloads ||| DEV_RX_OFFLOAD_CHECKSUM }
        txmode := { conf.txmode with
          offloads := conf.txmode.offloads ||| DEV_TX_OFFLOAD_IPV4_CKSUM
            ||| DEV_TX_OFFLOAD_UDP_CKSUM ||| DEV_TX_OFFLOAD_TCP_CKSUM } }
  else conf

/-- TSO step (src/dpdk/init.rs lines 134-140). -/
def apply_tso (cfg : DpdkConfig) (conf : RteEthConf) : RteEthConf :=
  if cfg.use_tso then
    { conf with txmode := { conf.txmode with
        offloads := conf.txmode.offloads ||| DEV_TX_OFFLOAD_TCP_TSO
          ||| DEV_TX_OFFLOAD_MULTI_SEGS } }
  else conf

/-- UDP-TSO step (src/dpdk/init.rs lines 143-149). -/
def apply_udp_tso (cfg : DpdkConfig) (conf : RteEthConf) : RteEthConf :=
  if cfg.use_udp_tso then
    { conf with txmode := { conf.txmode with
        offloads := conf.txmode.offloads ||| DEV_TX_OFFLOAD_UDP_TSO
          ||| DEV_TX_OFFLOAD_MULTI_SEGS } }
  else conf

/-- LRO step (src/dpdk/init.rs lines 152-155). -/
def apply_lro (cfg : DpdkConfig) (conf : RteEthConf) : RteEthConf :=
  if cfg.use_lro then
    { conf with rxmode := { conf.rxmode with
        offloads := conf.rxmode.offloads ||| DEV_RX_OFFLOAD_TCP_LRO } }
  else conf

/-- GRO step (src/dpdk/init.rs lines 158-165). -/
def apply_gro (cfg : DpdkConfig) (conf : RteEthConf) : RteEthConf :=
  if cfg.use_gro then
    { conf with rxmode := { conf.rxmode with
        offloads := conf.rxmode.offloads ||| DEV_RX_OFFLOAD_TCP_GRO
          ||| DEV_RX_OFFLOAD_SCATTER } }
  else conf

/-- The full `eth_conf` value passed to `rte_eth_dev_configure`
(src/dpdk/init.rs lines 104-174): `default_eth_config` mutated by the
conditional blocks in source order. -/
def build_eth_conf (cfg : DpdkConfig) : RteEthConf :=
  apply_gro cfg (apply_lro cfg (apply_udp_tso cfg (apply_tso cfg
    (apply_hw_checksum cfg (apply_jumbo cfg (apply_rss cfg default_eth_config))))))

/-! ## PacketData and PacketDataPool (src/packet/data.rs, src/packet/pool.rs)

Raw pointers are `Nat` with `0` for null. The pool's `crossbeam
ArrayQueue` is a bounded FIFO queue; the single worker thread of the
modelled executions makes its MPMC behaviour sequential: `pop` from the
front, `push` to the back, both failing instead of blocking. -/

structure PacketData where
  data_ptr : Nat
  data_len : Nat
  source_port : Nat
  dest_port : Nat
  queue_id : Nat
  source_ip_ptr : Nat
  source_ip_len : Nat
  dest_ip_ptr : Nat
  dest_ip_len : Nat
  mbuf_ptr : Nat
  deriving Repr, DecidableEq

/-- Rust `PacketData::new` (src/packet/data.rs): every pointer null, every
length and port zero. -/
def PacketData.new : PacketData where
  data_ptr := 0
  data_len := 0
  source_port := 0
  dest_port := 0
  queue_id := 0
  source_ip_ptr := 0
  source_ip_len := 0
  dest_ip_ptr := 0
  dest_ip_len := 0
  mbuf_ptr := 0

/-- Rust `PacketData::reset` (src/packet/data.rs): sets every field back to its
default, i.e. to the state produced by `new`. -/
def PacketData.reset (_p : PacketData) : PacketData := PacketData.new

/-- Rust `PacketDataPool` (src/packet/pool.rs): the `ArrayQueue` and its fixed
capacity. The NUMA placement of the backing memory does not affect the
values held, so `numa_node` / `allocated_memory` are not modelled. -/
structure PacketDataPool where
  capacity : Nat
  queue : List PacketData
  deriving Repr, DecidableEq

/-- Rust `PacketDataPool::new(capacity, _)` — on both the NUMA and the fallback
path the queue is populated with `capacity` default packets (the NUMA path
pushes until the queue refuses; `ArrayQueue::new(capacity)` accepts exactly
`capacity` pushes). -/
def PacketDataPool.new (capacity : Nat) : PacketDataPool where
  capacity := capacity
  queue := List.replicate capacity PacketData.new

/-- Rust `PacketDataPool::acquire` — non-blocking pop; an empty queue yields a
fresh default packet (the overflow path). -/
def PacketDataPool.acquire (p : PacketDataPool) : PacketData × PacketDataPool :=
  match p.queue with
  | [] => (PacketData.new, p)
  | d :: rest => (d, { p with queue := rest })

/-- Rust `PacketDataPool.release` — reset the packet, then non-blocking push; a
full queue drops the packet. -/
def PacketDataPool.release (p : PacketDataPool) (d : PacketData) : PacketDataPool :=
  let d := d.reset
  if p.queue.length < p.capacity then { p with queue := p.queue ++ [d] } else p

/-! ## The worker loop body (src/numa/node.rs `start_worker_thread`,
lines 238-305; src/cpu/worker.rs lines 204-270 is the same loop)

`dpdk_extract_packet_data` is an external pure function on an mbuf; it is
embedded as an oracle `extract : Nat → ExtractOut` giving, for each mbuf
pointer, the values it writes through its out-parameters and its return
code. The observable actions of one loop iteration are recorded as a trace
of `WorkerEvent`s. -/

structure ExtractOut where
  ret : Int
  src_ip_ptr : Nat
  src_ip_len : Nat
  dst_ip_ptr : Nat
  dst_ip_len : Nat
  src_port : Nat
  dst_port : Nat
  data_ptr : Nat
  data_len : Nat
  deriving Repr, DecidableEq

/-- Observable actions of the worker loop: acquiring a descriptor from the
pool, the synchronous handler invocation (with the descriptor passed to
it), freeing an mbuf via `rte_pktmbuf_free`, and returning the descriptor
to the pool. -/
inductive WorkerEvent where
  | acquire : WorkerEvent
  | handler (queue_id : Nat) (pkt : PacketData) : WorkerEvent
  | free_mbuf (mbuf : Nat) : WorkerEvent
  | release : WorkerEvent
  deriving Repr, DecidableEq

/-- The success test of the loop body (src/numa/node.rs line 276):
`ret == 0 && !data_ptr.is_null() && data_len > 0`. -/
def extract_ok (e : ExtractOut) : Prop :=
  e.ret = 0 ∧ e.data_ptr ≠ 0 ∧ 0 < e.data_len

instance (e : ExtractOut) : Decidable (extract_ok e) := by
  unfold extract_ok; infer_instance

/-- The field population of src/numa/node.rs lines 281-290: every field of
the acquired descriptor is overwritten from the extraction output, with
`queue_id` set to the worker's queue and `mbuf_ptr` to the current mbuf. -/
def populate (d : PacketData) (queue_id : Nat) (e : ExtractOut) (mbuf : Nat) : PacketData :=
  { d with
      source_port := e.src_port
      dest_port := e.dst_port
      queue_id := queue_id
      source_ip_ptr := e.src_ip_ptr
      source_ip_len := e.src_ip_len
      dest_ip_ptr := e.dst_ip_ptr
      dest_ip_len := e.dst_ip_len
      data_ptr := e.data_ptr
      data_len := e.data_len
      mbuf_ptr := mbuf }

/-- One iteration of the inner `for i in 0..nb_rx` loop (src/numa/node.rs
lines 249-303) for the mbuf `rx_pkts[i]`: on extraction success acquire,
populate, invoke the handler, free the mbuf, release; on failure only free
the mbuf. Returns the new pool state and the event trace of the
iteration. -/
def process_packet (queue_id : Nat) (extract : Nat → ExtractOut)
    (pool : PacketDataPool) (mbuf : Nat) : PacketDataPool × List WorkerEvent :=
  let e := extract mbuf
  if extract_ok e then
    let a := pool.acquire
    let d := populate a.1 queue_id e mbuf
    (a.2.release d,
      [WorkerEvent.acquire, WorkerEvent.handler queue_id d,
       WorkerEvent.free_mbuf mbuf, WorkerEvent.release])
  else
    (pool, [WorkerEvent.free_mbuf mbuf])

/-- The whole inner loop over one burst: the mbufs `rx_pkts[0..nb_rx]`
returned by a single `rte_eth_rx_burst` call, processed in order with the
pool state threaded through. -/
def process_burst (queue_id : Nat) (extract : Nat → ExtractOut)
    (pool : PacketDataPool) : List Nat → PacketDataPool × List WorkerEvent
  | [] => (pool, [])
  | mbuf :: rest =>
    let pr := process_packet queue_id extract pool mbuf
    let pr2 := process_burst queue_id extract pr.1 rest
    (pr2.1, pr.2 ++ pr2.2)

/-- The handler invocations of a trace, in order. -/
def handler_calls (evs : List WorkerEvent) : List (Nat × PacketData) :=
  evs.filterMap fun ev =>
    match ev with
    | WorkerEvent.handler q d => some (q, d)
    | _ => none

/-! ## NumaNode (src/numa/node.rs)

`Worker.thread` (the `JoinHandle`) carries no data relevant to the claims;
joining is recorded in the action trace instead. Error values mirror the
`String` errors of the source. -/

structure DpdkPort where
  port_id : Nat
  if_name : String
  num_rx_queues : Nat
  num_tx_queues : Nat
  deriving Repr, DecidableEq

structure Worker where
  core_id : Nat
  port_id : Nat
  queue_id : Nat
  deriving Repr, DecidableEq

structure NumaNode where
  node_id : Nat
  local_cpus : List Nat
  local_ports : List DpdkPort
  packet_pool : Option PacketDataPool
  workers : List Worker
  running : Bool
  deriving Repr, DecidableEq

/-- Rust `NumaNode::init_packet_pool` (src/numa/node.rs lines 128-138): replace
the pool with a fresh one of the given capacity (always returns `Ok`). -/
def NumaNode.init_packet_pool (n : NumaNode) (capacity : Nat) : NumaNode :=
  { n with packet_pool := some (PacketDataPool.new capacity) }

/-- The inner `for queue_id in 0..num_rx_queues` loop of `start_workers`
(src/numa/node.rs lines 178-196): one worker per RX queue, pinned to
`local_cpus[queue_id % local_cpus.len()]` (round-robin). Reached only with
non-empty `local_cpus`, where `getD _ 0` is exact. -/
def spawn_for_port (cpus : List Nat) (p : DpdkPort) : List Worker :=
  (List.range p.num_rx_queues).map fun queue_id =>
    { core_id := cpus.getD (queue_id % cpus.length) 0
      port_id := p.port_id
      queue_id := queue_id }

/-- The `for port in &self.local_ports` loop of `start_workers`
(src/numa/node.rs lines 163-197): per port, first the emptiness check on
`local_cpus` (an early `return Err`), then one worker per RX queue pushed
onto `workers`. Returns the workers pushed before any error together with
the error, matching the source's in-place pushes. -/
def start_loop (node_id : Nat) (cpus : List Nat) :
    List DpdkPort → List Worker × Option String
  | [] => ([], none)
  | p :: ps =>
    if cpus.isEmpty then
      ([], some ("No cores available for NUMA node " ++ toString node_id))
    else
      let ws := spawn_for_port cpus p
      let r := start_loop node_id cpus ps
      (ws ++ r.1, r.2)

/-- The pool step of `start_workers` (src/numa/node.rs lines 150-158):
keep an existing pool, otherwise create one with capacity
`burst_size * 4` (u32 arithmetic). -/
def NumaNode.ensure_pool (n : NumaNode) (burst_size : Nat) : NumaNode :=
  match n.packet_pool with
  | some _ => n
  | none => n.init_packet_pool ((burst_size * 4) % 2 ^ 32)

/-- Rust `NumaNode::start_workers` (src/numa/node.rs lines 141-205). In source
order: the `running` guard (`AlreadyRunning`), the pool step, the
`running = true` store, then the spawn loop over local ports. -/
def NumaNode.start_workers (n : NumaNode) (burst_size : Nat) :
    NumaNode × Except String Unit :=
  if n.running then
    (n, Except.error "Workers already running")
  else
    let n := n.ensure_pool burst_size
    let n := { n with running := true }
    let r := start_loop n.node_id n.local_cpus n.local_ports
    let n := { n with workers := n.workers ++ r.1 }
    match r.2 with
    | some e => (n, Except.error e)
    | none => (n, Except.ok ())

/-- Observable shutdown actions: the `running` store, worker-thread joins,
and the KBD calls `rte_eth_dev_stop` / `rte_eth_dev_close` /
`rte_eal_cleanup`. -/
inductive MgrAction where
  | store_running (node_id : Nat) (value : Bool) : MgrAction
  | join_thread (port_id queue_id : Nat) : MgrAction
  | port_stop (port_id : Nat) : MgrAction
  | port_close (port_id : Nat) : MgrAction
  | eal_cleanup : MgrAction
  deriving Repr, DecidableEq

/-- Rust `NumaNode::stop_workers` (src/numa/node.rs lines 317-341): early return
when `running` is already false; otherwise store `running = false`, then
`while let Some(worker) = self.workers.pop()` joins the workers from the
back of the vector — last-spawned first (LIFO). Returns the new state and
the action trace. -/
def NumaNode.stop_workers (n : NumaNode) : NumaNode × List MgrAction :=
  if n.running = false then
    (n, [])
  else
    ({ n with running := false, workers := [] },
      MgrAction.store_running n.node_id false
        :: n.workers.reverse.map fun w => MgrAction.join_thread w.port_id w.queue_id)

/-! ## NumaManager (src/numa/manager.rs)

The manager's topology snapshots (`cpu_topology`, `numa_topology`) do not
enter the shutdown or pool-sizing claims and are not modelled; the node
`HashMap` is an association list in iteration order. -/

structure NumaManager where
  nodes : List (Nat × NumaNode)
  numa_available : Bool
  deriving Repr, DecidableEq

/-- The `for (node_id, node) in &mut self.nodes` loop of
`stop_packet_processing`: stop each node's workers, concatenating the
traces. -/
def stop_nodes : List (Nat × NumaNode) → List (Nat × NumaNode) × List MgrAction
  | [] => ([], [])
  | (id, n) :: rest =>
    let s := n.stop_workers
    let r := stop_nodes rest
    ((id, s.1) :: r.1, s.2 ++ r.2)

/-- Rust `NumaManager::stop_packet_processing` (src/numa/manager.rs lines
157-165): `stop_workers` on every node. -/
def NumaManager.stop_packet_processing (m : NumaManager) :
    NumaManager × List MgrAction :=
  let s := stop_nodes m.nodes
  ({ m with nodes := s.1 }, s.2)

/-- Rust `impl Drop for NumaManager` (src/numa/manager.rs lines 220-224): the
whole destructor body is the single call `self.stop_packet_processing()`. -/
def NumaManager.dtor (m : NumaManager) : NumaManager × List MgrAction :=
  m.stop_packet_processing

/-- The packet-pool sizing step of `NumaManager::init_dpdk`
(src/numa/manager.rs lines 108-135): after EAL initialization and port
configuration succeed for a node, `init_packet_pool` is called with
`pool_capacity = burst_size * 4` (u32 arithmetic). This embeds the state
effect of the loop on the nodes for runs where every KBD call succeeds. -/
def NumaManager.init_dpdk (m : NumaManager) (cfg : DpdkConfig) : NumaManager :=
  { m with nodes := m.nodes.map fun p =>
      (p.1, p.2.init_packet_pool ((cfg.burst_size * 4) % 2 ^ 32)) }

/-! ## Concrete instances used by witnesses and counterexamples -/

/-- An extraction oracle: mbuf 7 extracts successfully (2 payload bytes at
offset 300), every other mbuf fails with -1. -/
def sampleExtract : Nat → ExtractOut := fun m =>
  if m = 7 then
    { ret := 0, src_ip_ptr := 100, src_ip_len := 4, dst_ip_ptr := 200
      dst_ip_len := 4, src_port := 1111, dst_port := 2222
      data_ptr := 300, data_len := 2 }
  else
    { ret := -1, src_ip_ptr := 0, src_ip_len := 0, dst_ip_ptr := 0
      dst_ip_len := 0, src_port := 0, dst_port := 0
      data_ptr := 0, data_len := 0 }

/-- A small descriptor pool. -/
def samplePool : PacketDataPool := PacketDataPool.new 4

/-- A node with one registered port but no usable cores — the input that
hits the `NoCores` error path of `start_workers`. -/
def sampleNoCoresNode : NumaNode where
  node_id := 0
  local_cpus := []
  local_ports := [{ port_id := 0, if_name := "eth0", num_rx_queues := 1, num_tx_queues := 1 }]
  packet_pool := none
  workers := []
  running := false

/-- The node of scenario S4: `local_cpus = [1,2,3]` and one port with five
RX queues. -/
def sampleS4Node : NumaNode where
  node_id := 0
  local_cpus := [1, 2, 3]
  local_ports := [{ port_id := 0, if_name := "eth0", num_rx_queues := 5, num_tx_queues := 1 }]
  packet_pool := none
  workers := []
  running := false

/-- A node whose workers are running: one started port, two workers. -/
def sampleRunningNode : NumaNode where
  node_id := 0
  local_cpus := [1, 2]
  local_ports := [{ port_id := 0, if_name := "eth0", num_rx_queues := 2, num_tx_queues := 1 }]
  packet_pool := some (PacketDataPool.new 128)
  workers := [{ core_id := 1, port_id := 0, queue_id := 0 },
              { core_id := 2, port_id := 0, queue_id := 1 }]
  running := true

/-- A manager owning one node with a started port and running workers. -/
def sampleManager : NumaManager where
  nodes := [(0, sampleRunningNode)]
  numa_available := true

end HFEEC

namespace HFEEC

/-! # Theorems

First the shared helper lemmas, then one theorem per claim (with its
counterexample and witness where applicable). -/

theorem apply_jumbo_rss_parts (cfg : DpdkConfig) (conf : RteEthConf) :
    (apply_jumbo cfg conf).rxmode.mq_mode = conf.rxmode.mq_mode ∧
    (apply_jumbo cfg conf).rss_conf = conf.rss_conf := by
  unfold apply_jumbo; split <;> exact ⟨rfl, rfl⟩

theorem apply_hw_checksum_rss_parts (cfg : DpdkConfig) (conf : RteEthConf) :
    (apply_hw_checksum cfg conf).rxmode.mq_mode = conf.rxmode.mq_mode ∧
    (apply_hw_checksum cfg conf).rss_conf = conf.rss_conf := by
  unfold apply_hw_checksum; split <;> exact ⟨rfl, rfl⟩

theorem apply_tso_rss_parts (cfg : DpdkConfig) (conf : RteEthConf) :
    (apply_tso cfg conf).rxmode.mq_mode = conf.rxmode.mq_mode ∧
    (apply_tso cfg conf).rss_conf = conf.rss_conf := by
  unfold apply_tso; split <;> exact ⟨rfl, rfl⟩

theorem apply_udp_tso_rss_parts (cfg : DpdkConfig) (conf : RteEthConf) :
    (apply_udp_tso cfg conf).rxmode.mq_mode = conf.rxmode.mq_mode ∧
    (apply_udp_tso cfg conf).rss_conf = conf.rss_conf := by
  unfold apply_udp_tso; split <;> exact ⟨rfl, rfl⟩

theorem apply_lro_rss_parts (cfg : DpdkConfig) (conf : RteEthConf) :
    (apply_lro cfg conf).rxmode.mq_mode = conf.rxmode.mq_mode ∧
    (apply_lro cfg conf).rss_conf = conf.rss_conf := by
  unfold apply_lro; split <;> exact ⟨rfl, rfl⟩

theorem apply_gro_rss_parts (cfg : DpdkConfig) (conf : RteEthConf) :
    (apply_gro cfg conf).rxmode.mq_mode = conf.rxmode.mq_mode ∧
    (apply_gro cfg conf).rss_conf = conf.rss_conf := by
  unfold apply_gro; split <;> exact ⟨rfl, rfl⟩

theorem build_eth_conf_mq_mode (cfg : DpdkConfig) :
    (build_eth_conf cfg).rxmode.mq_mode =
      (apply_rss cfg default_eth_config).rxmode.mq_mode := by
  unfold build_eth_conf
  rw [(apply_gro_rss_parts _ _).1, (apply_lro_rss_parts _ _).1,
    (apply_udp_tso_rss_parts _ _).1, (apply_tso_rss_parts _ _).1,
    (apply_hw_checksum_rss_parts _ _).1, (apply_jumbo_rss_parts _ _).1]

theorem build_eth_conf_rss_conf (cfg : DpdkConfig) :
    (build_eth_conf cfg).rss_conf = (apply_rss cfg default_eth_config).rss_conf := by
  unfold build_eth_conf
  rw [(apply_gro_rss_parts _ _).2, (apply_lro_rss_parts _ _).2,
    (apply_udp_tso_rss_parts _ _).2, (apply_tso_rss_parts _ _).2,
    (apply_hw_checksum_rss_parts _ _).2, (apply_jumbo_rss_parts _ _).2]

theorem apply_rss_of_enabled (cfg : DpdkConfig) (conf : RteEthConf)
    (hu : cfg.use_rss = true) (hq : 1 < cfg.num_rx_queues) :
    (apply_rss cfg conf).rxmode.mq_mode = ETH_MQ_RX_RSS ∧
    (apply_rss cfg conf).rss_conf.rss_hf = cfg.rss_hf ∧
    ∀ key, cfg.rss_key = some key →
      (apply_rss cfg conf).rss_conf.rss_key = some key := by
  unfold apply_rss
  cases hk : cfg.rss_key <;> simp [hu, hq, hk]

theorem apply_rss_of_disabled (cfg : DpdkConfig) (conf : RteEthConf)
    (h : ¬(cfg.use_rss = true ∧ 1 < cfg.num_rx_queues)) :
    apply_rss cfg conf = conf := by
  unfold apply_rss
  cases hu : cfg.use_rss
  · simp
  · have hq : ¬(1 < cfg.num_rx_queues) := fun hq => h ⟨hu, hq⟩
    simp [hq]

end HFEEC

namespace HFEEC

/-- C5 counterexample: the spec's fourth example fails on the code —
`parse_cpu_list " 1 - 3 "` yields `[]`, not `[1,2,3]`, because only the
whole list is trimmed; the `-`-split halves `"1 "` and `" 3"` retain inner
whitespace and `usize` parsing rejects them, so the token is dropped as
invalid. -/
theorem c5_counterexample : parse_cpu_list " 1 - 3 " ≠ [1, 2, 3] := by decide

/-- C5 (amended): `parse_cpu_list` is total, drops invalid tokens and
yields the listed ranges in order; `"0-3,5,7-9" = [0,1,2,3,5,7,8,9]`,
`"0,2,4" = [0,2,4]`, `"0-2" = [0,1,2]`, and whitespace is tolerated only
around the whole list (`" 1-3 " = [1,2,3]`) — a token with interior
whitespace such as `" 1 - 3 "` is invalid and dropped, giving `[]`. -/
theorem c5_parse_cpu_list_examples :
    parse_cpu_list "0-3,5,7-9" = [0, 1, 2, 3, 5, 7, 8, 9] ∧
    parse_cpu_list "0,2,4" = [0, 2, 4] ∧
    parse_cpu_list "0-2" = [0, 1, 2] ∧
    parse_cpu_list " 1-3 " = [1, 2, 3] ∧
    parse_cpu_list " 1 - 3 " = [] := by
  exact ⟨by decide, by decide, by decide, by decide, by decide⟩

/-- C4 counterexample: when `/sys/devices/system/node` is absent,
`load_topology` returns with `node_cores` completely empty — on a host
with four logical cores the claimed entry `0 ↦ [0,1,2,3]` is absent (the
lookup of node 0 yields nothing at all). -/
theorem c4_counterexample :
    (load_topology none).num_nodes = 1 ∧
    (load_topology none).node_cores.lookup 0 ≠ some [0, 1, 2, 3] ∧
    (load_topology none).node_cores = [] := by decide

/-- C4 (amended): absence of the NUMA sysfs tree yields `num_nodes = 1`
with an empty `node_cores` map — node 0 gets no core list at all, rather
than the list of all logical cores of the host. -/
theorem c4_single_node_fallback :
    load_topology none = { num_nodes := 1, node_cores := [] } := rfl

/-- C6: port configuration sets the RX multi-queue mode to RSS and
programs the hash mask (and the key when provided) iff RSS is enabled in
the config and `num_rx_queues > 1`; with `num_rx_queues = 1` RSS is never
enabled; and the default hash mask is IPv4-TCP ∪ IPv4-UDP ∪ L4-dst-only. -/
theorem c6_rss_configuration (cfg : DpdkConfig) :
    ((build_eth_conf cfg).rxmode.mq_mode = ETH_MQ_RX_RSS ↔
      (cfg.use_rss = true ∧ 1 < cfg.num_rx_queues)) ∧
    (cfg.use_rss = true → 1 < cfg.num_rx_queues →
      (build_eth_conf cfg).rss_conf.rss_hf = cfg.rss_hf ∧
      ∀ key, cfg.rss_key = some key →
        (build_eth_conf cfg).rss_conf.rss_key = some key) ∧
    (¬(cfg.use_rss = true ∧ 1 < cfg.num_rx_queues) →
      (build_eth_conf cfg).rxmode.mq_mode = 0 ∧
      (build_eth_conf cfg).rss_conf = default_eth_config.rss_conf) ∧
    (cfg.num_rx_queues = 1 →
      (build_eth_conf cfg).rxmode.mq_mode ≠ ETH_MQ_RX_RSS) ∧
    DpdkConfig.default.rss_hf =
      (ETH_RSS_NONFRAG_IPV4_TCP ||| ETH_RSS_NONFRAG_IPV4_UDP ||| ETH_RSS_L4_DST_ONLY) := by
  refine ⟨?_, ?_, ?_, ?_, rfl⟩
  · rw [build_eth_conf_mq_mode]
    by_cases h : cfg.use_rss = true ∧ 1 < cfg.num_rx_queues
    · simp [(apply_rss_of_enabled cfg default_eth_config h.1 h.2).1, h]
    · rw [apply_rss_of_disabled cfg default_eth_config h]
      simp only [default_eth_config, ETH_MQ_RX_RSS]
      exact iff_of_false (by decide) h
  · intro hu hq
    rw [build_eth_conf_rss_conf]
    exact ⟨(apply_rss_of_enabled cfg default_eth_config hu hq).2.1,
      (apply_rss_of_enabled cfg default_eth_config hu hq).2.2⟩
  · intro h
    rw [build_eth_conf_mq_mode, build_eth_conf_rss_conf,
      apply_rss_of_disabled cfg default_eth_config h]
    exact ⟨rfl, rfl⟩
  · intro h1
    rw [build_eth_conf_mq_mode,
      apply_rss_of_disabled cfg default_eth_config (by rw [h1]; rintro ⟨-, h⟩; exact absurd h (by decide))]
    decide

/-- C6 witness: the default config (RSS on, 4 RX queues, no explicit key)
gets multi-queue mode RSS and the default mask programmed. -/
theorem c6_rss_configuration_witness :
    (DpdkConfig.default.use_rss = true ∧ 1 < DpdkConfig.default.num_rx_queues) ∧
    ((build_eth_conf DpdkConfig.default).rss_conf.rss_hf = DpdkConfig.default.rss_hf ∧
      ∀ key, DpdkConfig.default.rss_key = some key →
        (build_eth_conf DpdkConfig.default).rss_conf.rss_key = some key) ∧
    (build_eth_conf DpdkConfig.default).rxmode.mq_mode = ETH_MQ_RX_RSS :=
  ⟨⟨by decide, by decide⟩,
   (c6_rss_configuration DpdkConfig.default).2.1 (by decide) (by decide),
   (c6_rss_configuration DpdkConfig.default).1.mpr ⟨by decide, by decide⟩⟩

end HFEEC

namespace HFEEC

theorem populate_irrelevant (d d' : PacketData) (q : Nat) (e : ExtractOut) (m : Nat) :
    populate d q e m = populate d' q e m := rfl

theorem process_packet_of_ok (q : Nat) (extract : Nat → ExtractOut)
    (pool : PacketDataPool) (mbuf : Nat) (h : extract_ok (extract mbuf)) :
    process_packet q extract pool mbuf =
      (pool.acquire.2.release (populate pool.acquire.1 q (extract mbuf) mbuf),
        [WorkerEvent.acquire,
         WorkerEvent.handler q (populate pool.acquire.1 q (extract mbuf) mbuf),
         WorkerEvent.free_mbuf mbuf, WorkerEvent.release]) := by
  unfold process_packet
  simp [h]

theorem process_packet_of_fail (q : Nat) (extract : Nat → ExtractOut)
    (pool : PacketDataPool) (mbuf : Nat) (h : ¬ extract_ok (extract mbuf)) :
    process_packet q extract pool mbuf = (pool, [WorkerEvent.free_mbuf mbuf]) := by
  unfold process_packet
  simp [h]

theorem handler_calls_append (a b : List WorkerEvent) :
    handler_calls (a ++ b) = handler_calls a ++ handler_calls b := by
  simp [handler_calls, List.filterMap_append]

/-- C1: for every received mbuf on which extraction returns 0 with a
non-null payload pointer and positive length, the worker acquires a
descriptor from the pool, populates all of its fields (`mbuf_ptr` set to
that mbuf and `queue_id` to the worker's queue), invokes the handler
synchronously with `(queue_id, descriptor)`, frees the mbuf and returns
the descriptor to the pool; on extraction failure it only frees the mbuf —
no handler call, no descriptor acquired. -/
theorem c1_worker_per_mbuf (q : Nat) (extract : Nat → ExtractOut)
    (pool : PacketDataPool) (mbuf : Nat) :
    (extract_ok (extract mbuf) →
      ∃ d : PacketData,
        process_packet q extract pool mbuf =
          (pool.acquire.2.release d,
            [WorkerEvent.acquire, WorkerEvent.handler q d,
             WorkerEvent.free_mbuf mbuf, WorkerEvent.release]) ∧
        d.mbuf_ptr = mbuf ∧
        d.queue_id = q ∧
        d.data_ptr = (extract mbuf).data_ptr ∧
        d.data_len = (extract mbuf).data_len ∧
        d.source_port = (extract mbuf).src_port ∧
        d.dest_port = (extract mbuf).dst_port ∧
        d.source_ip_ptr = (extract mbuf).src_ip_ptr ∧
        d.source_ip_len = (extract mbuf).src_ip_len ∧
        d.dest_ip_ptr = (extract mbuf).dst_ip_ptr ∧
        d.dest_ip_len = (extract mbuf).dst_ip_len) ∧
    (¬ extract_ok (extract mbuf) →
      process_packet q extract pool mbuf = (pool, [WorkerEvent.free_mbuf mbuf])) := by
  constructor
  · intro h
    exact ⟨populate pool.acquire.1 q (extract mbuf) mbuf,
      process_packet_of_ok q extract pool mbuf h,
      rfl, rfl, rfl, rfl, rfl, rfl, rfl, rfl, rfl, rfl⟩
  · intro h
    exact process_packet_of_fail q extract pool mbuf h

/-- C1 witness: with the sample oracle, mbuf 7 extracts successfully and is
delivered; mbuf 8 fails extraction and is only freed. -/
theorem c1_worker_per_mbuf_witness :
    extract_ok (sampleExtract 7) ∧
    (¬ extract_ok (sampleExtract 8)) ∧
    (∃ d : PacketData,
        process_packet 0 sampleExtract samplePool 7 =
          (samplePool.acquire.2.release d,
            [WorkerEvent.acquire, WorkerEvent.handler 0 d,
             WorkerEvent.free_mbuf 7, WorkerEvent.release]) ∧
        d.mbuf_ptr = 7 ∧
        d.queue_id = 0 ∧
        d.data_ptr = (sampleExtract 7).data_ptr ∧
        d.data_len = (sampleExtract 7).data_len ∧
        d.source_port = (sampleExtract 7).src_port ∧
        d.dest_port = (sampleExtract 7).dst_port ∧
        d.source_ip_ptr = (sampleExtract 7).src_ip_ptr ∧
        d.source_ip_len = (sampleExtract 7).src_ip_len ∧
        d.dest_ip_ptr = (sampleExtract 7).dst_ip_ptr ∧
        d.dest_ip_len = (sampleExtract 7).dst_ip_len) ∧
    process_packet 0 sampleExtract samplePool 8 =
      (samplePool, [WorkerEvent.free_mbuf 8]) :=
  ⟨by decide, by decide,
   (c1_worker_per_mbuf 0 sampleExtract samplePool 7).1 (by decide),
   (c1_worker_per_mbuf 0 sampleExtract samplePool 8).2 (by decide)⟩

/-- C8: within one burst the handler is invoked on exactly the
successfully extracted packets, in exactly the order `rx_burst` returned
them — the handler-call subsequence of the event trace equals the ordered
list of successful mbufs, each paired with its populated descriptor. -/
theorem c8_fifo_order (q : Nat) (extract : Nat → ExtractOut)
    (pool : PacketDataPool) (mbufs : List Nat) :
    handler_calls (process_burst q extract pool mbufs).2 =
      (mbufs.filter fun m => decide (extract_ok (extract m))).map
        fun m => (q, populate PacketData.new q (extract m) m) := by
  induction mbufs generalizing pool with
  | nil => rfl
  | cons m rest ih =>
    have hsplit : (process_burst q extract pool (m :: rest)).2 =
        (process_packet q extract pool m).2 ++
          (process_burst q extract (process_packet q extract pool m).1 rest).2 := rfl
    rw [hsplit, handler_calls_append, List.filter_cons]
    by_cases h : extract_ok (extract m)
    · rw [process_packet_of_ok q extract pool m h]
      have h1 : handler_calls
          [WorkerEvent.acquire,
           WorkerEvent.handler q (populate pool.acquire.1 q (extract m) m),
           WorkerEvent.free_mbuf m, WorkerEvent.release] =
          [(q, populate pool.acquire.1 q (extract m) m)] := rfl
      rw [h1, ih]
      simp only [h, decide_True, if_true, List.map_cons]
      exact congrArg (· :: _) rfl
    · rw [process_packet_of_fail q extract pool m h]
      have h0 : handler_calls [WorkerEvent.free_mbuf m] = [] := rfl
      rw [h0, List.nil_append, ih]
      simp [h]

end HFEEC

namespace HFEEC

theorem start_loop_no_cores (id : Nat) (p : DpdkPort) (ps : List DpdkPort) :
    start_loop id [] (p :: ps) =
      ([], some ("No cores available for NUMA node " ++ toString id)) := rfl

theorem start_loop_of_cores (id : Nat) (cpus : List Nat)
    (hc : cpus.isEmpty = false) (ports : List DpdkPort) :
    start_loop id cpus ports = (ports.flatMap (spawn_for_port cpus), none) := by
  induction ports with
  | nil => rfl
  | cons p ps ih => simp [start_loop, hc, ih, List.flatMap_cons]

theorem ensure_pool_parts (n : NumaNode) (b : Nat) :
    (n.ensure_pool b).node_id = n.node_id ∧
    (n.ensure_pool b).local_cpus = n.local_cpus ∧
    (n.ensure_pool b).local_ports = n.local_ports ∧
    (n.ensure_pool b).workers = n.workers ∧
    (n.ensure_pool b).running = n.running := by
  unfold NumaNode.ensure_pool NumaNode.init_packet_pool
  cases n.packet_pool <;> exact ⟨rfl, rfl, rfl, rfl, rfl⟩

theorem ensure_pool_of_none (n : NumaNode) (b : Nat) (h : n.packet_pool = none) :
    n.ensure_pool b = n.init_packet_pool ((b * 4) % 2 ^ 32) := by
  unfold NumaNode.ensure_pool
  rw [h]

theorem start_workers_already_running (n : NumaNode) (b : Nat) (h : n.running = true) :
    n.start_workers b = (n, Except.error "Workers already running") := by
  unfold NumaNode.start_workers
  simp [h]

theorem start_workers_ok_eq (n : NumaNode) (b : Nat) (h1 : n.running = false)
    (hc : n.local_cpus.isEmpty = false) :
    n.start_workers b =
      ({ n.ensure_pool b with
          running := true
          workers := n.workers ++ n.local_ports.flatMap (spawn_for_port n.local_cpus) },
        Except.ok ()) := by
  unfold NumaNode.start_workers
  simp only [h1, Bool.false_eq_true, if_false]
  rw [(ensure_pool_parts n b).1, (ensure_pool_parts n b).2.1,
    (ensure_pool_parts n b).2.2.1, (ensure_pool_parts n b).2.2.2.1,
    start_loop_of_cores n.node_id n.local_cpus hc n.local_ports]

theorem start_workers_no_cores_eq (n : NumaNode) (b : Nat) (h1 : n.running = false)
    (hc : n.local_cpus = []) (p : DpdkPort) (ps : List DpdkPort)
    (hp : n.local_ports = p :: ps) :
    n.start_workers b =
      ({ n.ensure_pool b with running := true },
        Except.error ("No cores available for NUMA node " ++ toString n.node_id)) := by
  unfold NumaNode.start_workers
  simp only [h1, Bool.false_eq_true, if_false]
  rw [(ensure_pool_parts n b).1, (ensure_pool_parts n b).2.1,
    (ensure_pool_parts n b).2.2.1, hc, hp, start_loop_no_cores]
  simp [List.append_nil]

theorem start_workers_pool (n : NumaNode) (b : Nat) (h1 : n.running = false) :
    (n.start_workers b).1.packet_pool = (n.ensure_pool b).packet_pool := by
  unfold NumaNode.start_workers
  simp only [h1, Bool.false_eq_true, if_false]
  split <;> rfl

end HFEEC

namespace HFEEC

/-- C2 counterexample: on a node with a registered port and no usable
cores, `start_workers` returns the `NoCores` error but the node's state has
changed — the `running` flag, `false` before the call, is `true`
afterwards, because the code stores `running = true` before the per-port
core check. -/
theorem c2_counterexample :
    (sampleNoCoresNode.start_workers 32).2 =
      Except.error ("No cores available for NUMA node " ++ toString 0) ∧
    sampleNoCoresNode.running = false ∧
    (sampleNoCoresNode.start_workers 32).1.running = true := by
  refine ⟨?_, rfl, ?_⟩
  · rw [start_workers_no_cores_eq sampleNoCoresNode 32 rfl rfl _ [] rfl]
    rfl
  · rw [start_workers_no_cores_eq sampleNoCoresNode 32 rfl rfl _ [] rfl]

/-- C2 (amended): on `AlreadyRunning` the node's state is completely
unchanged; on `NoCores` (empty `local_cpus` with at least one registered
port) no worker is appended, but the `running` flag — stored before the
check — has been set to `true` when the error is returned. -/
theorem c2_error_paths (n : NumaNode) (b : Nat) :
    (n.running = true → n.start_workers b = (n, Except.error "Workers already running")) ∧
    (n.running = false → n.local_cpus = [] → ∀ p ps, n.local_ports = p :: ps →
      (n.start_workers b).2 =
        Except.error ("No cores available for NUMA node " ++ toString n.node_id) ∧
      (n.start_workers b).1.workers = n.workers ∧
      (n.start_workers b).1.running = true) := by
  constructor
  · intro h
    exact start_workers_already_running n b h
  · intro h1 hc p ps hp
    rw [start_workers_no_cores_eq n b h1 hc p ps hp]
    exact ⟨rfl, (ensure_pool_parts n b).2.2.2.1, rfl⟩

/-- C2 witness: the `NoCores` branch of the amended claim at the concrete
no-cores node. -/
theorem c2_error_paths_witness :
    sampleNoCoresNode.running = false ∧
    sampleNoCoresNode.local_cpus = [] ∧
    ((sampleNoCoresNode.start_workers 32).2 =
        Except.error ("No cores available for NUMA node " ++
          toString sampleNoCoresNode.node_id) ∧
      (sampleNoCoresNode.start_workers 32).1.workers = sampleNoCoresNode.workers ∧
      (sampleNoCoresNode.start_workers 32).1.running = true) :=
  ⟨rfl, rfl, (c2_error_paths sampleNoCoresNode 32).2 rfl rfl _ [] rfl⟩

/-- C7: on a node with non-empty `local_cpus`, starting the workers
succeeds and appends, for every local port and every RX queue `q` of that
port, a worker pinned to core `local_cpus[q mod |local_cpus|]`
(round-robin), in port order and queue order. -/
theorem c7_round_robin (n : NumaNode) (b : Nat)
    (h1 : n.running = false) (h2 : n.local_cpus ≠ []) :
    (n.start_workers b).2 = Except.ok () ∧
    (n.start_workers b).1.workers =
      n.workers ++ n.local_ports.flatMap (spawn_for_port n.local_cpus) ∧
    ∀ p ∈ n.local_ports, ∀ q, q < p.num_rx_queues →
      (spawn_for_port n.local_cpus p)[q]? =
        some { core_id := n.local_cpus.getD (q % n.local_cpus.length) 0
               port_id := p.port_id
               queue_id := q } := by
  have hc : n.local_cpus.isEmpty = false := by
    cases hcl : n.local_cpus
    · exact absurd hcl h2
    · rfl
  rw [start_workers_ok_eq n b h1 hc]
  refine ⟨rfl, rfl, ?_⟩
  intro p _hp q hq
  unfold spawn_for_port
  rw [List.getElem?_map, List.getElem?_range hq]
  rfl

/-- C7 witness: scenario S4 — `local_cpus = [1,2,3]`, one port with five
RX queues; the spawned workers pin to cores `[1,2,3,1,2]` in queue
order. -/
theorem c7_round_robin_witness :
    sampleS4Node.running = false ∧
    sampleS4Node.local_cpus ≠ [] ∧
    ((sampleS4Node.start_workers 32).2 = Except.ok () ∧
      (sampleS4Node.start_workers 32).1.workers =
        sampleS4Node.workers ++
          sampleS4Node.local_ports.flatMap (spawn_for_port sampleS4Node.local_cpus) ∧
      ∀ p ∈ sampleS4Node.local_ports, ∀ q, q < p.num_rx_queues →
        (spawn_for_port sampleS4Node.local_cpus p)[q]? =
          some { core_id := sampleS4Node.local_cpus.getD
                    (q % sampleS4Node.local_cpus.length) 0
                 port_id := p.port_id
                 queue_id := q }) ∧
    (sampleS4Node.start_workers 32).1.workers.map Worker.core_id = [1, 2, 3, 1, 2] :=
  ⟨rfl, by decide, c7_round_robin sampleS4Node 32 rfl (by decide), by decide⟩

end HFEEC

namespace HFEEC

theorem stop_workers_not_running (n : NumaNode) (h : n.running = false) :
    n.stop_workers = (n, []) := by
  unfold NumaNode.stop_workers
  simp [h]

theorem stop_workers_running (n : NumaNode) (h : n.running = true) :
    n.stop_workers =
      ({ n with running := false, workers := [] },
        MgrAction.store_running n.node_id false
          :: n.workers.reverse.map fun w => MgrAction.join_thread w.port_id w.queue_id) := by
  unfold NumaNode.stop_workers
  simp [h]

/-- C9: `stop_workers` is idempotent — a second call finds `running`
already false, changes nothing and joins nothing; after one call the flag
is false, the workers list is empty (all spawned threads joined), and when
the node was running the join trace pops the workers vector from the back,
i.e. joins in LIFO order. The hypothesis is the structural invariant of
the node (workers exist only while `running` is set), established by
`new` and preserved by `start_workers` and `stop_workers`. -/
theorem c9_stop_idempotent (n : NumaNode) (hinv : n.running = false → n.workers = []) :
    (n.stop_workers).1.stop_workers = ((n.stop_workers).1, []) ∧
    (n.stop_workers).1.running = false ∧
    (n.stop_workers).1.workers = [] ∧
    (n.running = true →
      (n.stop_workers).2 =
        MgrAction.store_running n.node_id false
          :: n.workers.reverse.map fun w => MgrAction.join_thread w.port_id w.queue_id) := by
  cases hr : n.running
  · rw [stop_workers_not_running n hr]
    refine ⟨stop_workers_not_running n hr, hr, hinv hr, ?_⟩
    intro h
    exact absurd h (by decide)
  · rw [stop_workers_running n hr]
    exact ⟨stop_workers_not_running _ rfl, rfl, rfl, fun _ => rfl⟩

/-- C9 witness: a running node with two workers — stopped once it is
drained and joined LIFO; stopping again is a no-op. -/
theorem c9_stop_idempotent_witness :
    (sampleRunningNode.running = false → sampleRunningNode.workers = []) ∧
    ((sampleRunningNode.stop_workers).1.stop_workers =
        ((sampleRunningNode.stop_workers).1, []) ∧
      (sampleRunningNode.stop_workers).1.running = false ∧
      (sampleRunningNode.stop_workers).1.workers = [] ∧
      (sampleRunningNode.running = true →
        (sampleRunningNode.stop_workers).2 =
          MgrAction.store_running sampleRunningNode.node_id false
            :: sampleRunningNode.workers.reverse.map
                fun w => MgrAction.join_thread w.port_id w.queue_id)) ∧
    (sampleRunningNode.stop_workers).2 =
      [MgrAction.store_running 0 false,
       MgrAction.join_thread 0 1, MgrAction.join_thread 0 0] :=
  ⟨fun h => absurd h (by decide),
   c9_stop_idempotent sampleRunningNode (fun h => absurd h (by decide)),
   by decide⟩

/-- C10: when `start_workers` runs on a node without a pool, it creates
one with capacity exactly `4 * burst_size` (for any burst size that does
not overflow the u32 multiplication), and the manager's `init_dpdk`
likewise sizes every node's pool to `4 * burst_size`. -/
theorem c10_pool_capacity (n : NumaNode) (m : NumaManager) (cfg : DpdkConfig) (b : Nat)
    (h1 : n.running = false) (h2 : n.packet_pool = none)
    (hb : b < 2 ^ 30) (hcfg : cfg.burst_size < 2 ^ 30) :
    (∃ pool : PacketDataPool,
        (n.start_workers b).1.packet_pool = some pool ∧ pool.capacity = 4 * b) ∧
    ∀ p ∈ (m.init_dpdk cfg).nodes, ∃ pool : PacketDataPool,
        p.2.packet_pool = some pool ∧ pool.capacity = 4 * cfg.burst_size := by
  constructor
  · refine ⟨PacketDataPool.new ((b * 4) % 2 ^ 32), ?_, ?_⟩
    · rw [start_workers_pool n b h1, ensure_pool_of_none n b h2]
      rfl
    · show (b * 4) % 2 ^ 32 = 4 * b
      rw [Nat.mod_eq_of_lt (by omega)]
      exact Nat.mul_comm b 4
  · intro p hp
    simp only [NumaManager.init_dpdk] at hp
    rcases List.mem_map.mp hp with ⟨x, _hx, rfl⟩
    refine ⟨PacketDataPool.new ((cfg.burst_size * 4) % 2 ^ 32), rfl, ?_⟩
    show (cfg.burst_size * 4) % 2 ^ 32 = 4 * cfg.burst_size
    rw [Nat.mod_eq_of_lt (by omega)]
    exact Nat.mul_comm cfg.burst_size 4

/-- C10 witness: the S4 node (no pool, burst 32) gets a pool of capacity
128, and the sample manager's nodes are sized from the default config
(burst 32). -/
theorem c10_pool_capacity_witness :
    sampleS4Node.running = false ∧
    sampleS4Node.packet_pool = none ∧
    32 < 2 ^ 30 ∧
    DpdkConfig.default.burst_size < 2 ^ 30 ∧
    ((∃ pool : PacketDataPool,
        (sampleS4Node.start_workers 32).1.packet_pool = some pool ∧
          pool.capacity = 4 * 32) ∧
      ∀ p ∈ (sampleManager.init_dpdk DpdkConfig.default).nodes,
        ∃ pool : PacketDataPool,
          p.2.packet_pool = some pool ∧
            pool.capacity = 4 * DpdkConfig.default.burst_size) :=
  ⟨rfl, rfl, by decide, by decide,
   c10_pool_capacity sampleS4Node sampleManager DpdkConfig.default 32
     rfl rfl (by decide) (by decide)⟩

end HFEEC

namespace HFEEC

theorem stop_nodes_parts (ns : List (Nat × NumaNode)) :
    (stop_nodes ns).1 = ns.map (fun p => (p.1, (p.2.stop_workers).1)) ∧
    (stop_nodes ns).2 = ns.flatMap (fun p => (p.2.stop_workers).2) := by
  induction ns with
  | nil => exact ⟨rfl, rfl⟩
  | cons hd tl ih =>
    cases hd with
    | mk id node => simp [stop_nodes, ih.1, ih.2, List.flatMap_cons]

theorem stop_workers_state_flags (n : NumaNode) (hinv : n.running = false → n.workers = []) :
    (n.stop_workers).1.running = false ∧ (n.stop_workers).1.workers = [] := by
  cases hr : n.running
  · rw [stop_workers_not_running n hr]
    exact ⟨hr, hinv hr⟩
  · rw [stop_workers_running n hr]
    exact ⟨rfl, rfl⟩

theorem stop_workers_trace_shape (n : NumaNode) :
    ∀ a ∈ (n.stop_workers).2,
      (∃ id, a = MgrAction.store_running id false) ∨
      ∃ pid qid, a = MgrAction.join_thread pid qid := by
  cases hr : n.running
  · rw [stop_workers_not_running n hr]
    intro a ha
    exact absurd ha (List.not_mem_nil a)
  · rw [stop_workers_running n hr]
    intro a ha
    rcases List.mem_cons.mp ha with h | h
    · exact Or.inl ⟨n.node_id, h⟩
    · rcases List.mem_map.mp h with ⟨w, _, rfl⟩
      exact Or.inr ⟨w.port_id, w.queue_id, rfl⟩

/-- C3 counterexample: the `NumaManager` destructor on a manager owning a
started port (port 0, with running workers) performs only the
`stop_packet_processing` actions — the store of `running = false` and the
thread joins; it emits no `rte_eth_dev_stop`, no `rte_eth_dev_close` and
no `rte_eal_cleanup`, so the started port is neither stopped nor closed on
this shutdown path. -/
theorem c3_counterexample :
    sampleRunningNode.local_ports ≠ [] ∧
    (sampleManager.dtor).2 =
      [MgrAction.store_running 0 false,
       MgrAction.join_thread 0 1, MgrAction.join_thread 0 0] ∧
    MgrAction.port_stop 0 ∉ (sampleManager.dtor).2 ∧
    MgrAction.port_close 0 ∉ (sampleManager.dtor).2 ∧
    MgrAction.eal_cleanup ∉ (sampleManager.dtor).2 := by
  refine ⟨by decide, by decide, by decide, by decide, by decide⟩

/-- C3 (amended): `stop_packet_processing` stops every node's workers
(each node ends with `running = false` and all spawned threads joined);
the destructor performs exactly `stop_packet_processing` and nothing else —
in particular it stops no port, closes no port, and does not release the
global KBD state. -/
theorem c3_shutdown (m : NumaManager)
    (hinv : ∀ p ∈ m.nodes, p.2.running = false → p.2.workers = []) :
    m.dtor = m.stop_packet_processing ∧
    (∀ p ∈ (m.dtor).1.nodes, p.2.running = false ∧ p.2.workers = []) ∧
    ∀ a ∈ (m.dtor).2,
      (∀ pid, a ≠ MgrAction.port_stop pid ∧ a ≠ MgrAction.port_close pid) ∧
      a ≠ MgrAction.eal_cleanup := by
  refine ⟨rfl, ?_, ?_⟩
  · intro p hp
    rw [show (m.dtor).1.nodes = (stop_nodes m.nodes).1 from rfl,
      (stop_nodes_parts m.nodes).1] at hp
    rcases List.mem_map.mp hp with ⟨x, hx, rfl⟩
    exact stop_workers_state_flags x.2 (hinv x hx)
  · intro a ha
    rw [show (m.dtor).2 = (stop_nodes m.nodes).2 from rfl,
      (stop_nodes_parts m.nodes).2] at ha
    rcases List.mem_flatMap.mp ha with ⟨x, hx, hax⟩
    rcases stop_workers_trace_shape x.2 a hax with ⟨id, rfl⟩ | ⟨pid, qid, rfl⟩
    · exact ⟨fun pid => ⟨by simp, by simp⟩, by simp⟩
    · exact ⟨fun pid2 => ⟨by simp, by simp⟩, by simp⟩

/-- C3 witness: the amended claim at the sample manager. -/
theorem c3_shutdown_witness :
    sampleManager.dtor = sampleManager.stop_packet_processing ∧
    (∀ p ∈ (sampleManager.dtor).1.nodes, p.2.running = false ∧ p.2.workers = []) ∧
    ∀ a ∈ (sampleManager.dtor).2,
      (∀ pid, a ≠ MgrAction.port_stop pid ∧ a ≠ MgrAction.port_close pid) ∧
      a ≠ MgrAction.eal_cleanup :=
  c3_shutdown sampleManager
    (by
      intro p hp h
      simp only [sampleManager, List.mem_singleton] at hp
      subst hp
      exact absurd h (by decide))

end HFEEC

namespace HFEEC

/-! The hypothesis of `c9_stop_idempotent` and `c3_shutdown` — workers
exist only while `running` is set — is an invariant of the node: vacuous
at construction (`workers = []`), and preserved by both operations. -/

theorem start_workers_running_after (n : NumaNode) (b : Nat) (h1 : n.running = false) :
    (n.start_workers b).1.running = true := by
  unfold NumaNode.start_workers
  simp only [h1, Bool.false_eq_true, if_false]
  split <;> rfl

theorem start_workers_preserves_invariant (n : NumaNode) (b : Nat) :
    (n.start_workers b).1.running = false → (n.start_workers b).1.workers = [] := by
  cases hr : n.running
  · intro h
    rw [start_workers_running_after n b hr] at h
    exact absurd h (by decide)
  · rw [start_workers_already_running n b hr]
    intro h
    rw [hr] at h
    exact absurd h (by decide)

theorem stop_workers_preserves_invariant (n : NumaNode)
    (hinv : n.running = false → n.workers = []) :
    (n.stop_workers).1.running = false → (n.stop_workers).1.workers = [] :=
  fun _ => (stop_workers_state_flags n hinv).2

end HFEEC
